import Mathlib

/-!
Verification of the sadat_backend attendance system against its
natural-language specification.  The definitions below are a shallow
embedding of the JavaScript source:

* src/services/qrService.js        (QR freshness validation)
* src/services/authService.js      (lockout counters, login helpers)
* src/routes/auth.js               (the POST /login handler)
* src/controllers/attendanceController.js
    (scanQRCode, recordAttendance, bulkRecordAttendance,
     getAttendanceStats, StudentController.getStudentProfile)
* src/controllers/reportsController.js (getStudentAttendanceReport)
* src/models/Attendance.js         (day-granularity uniqueness intent)

Timestamps are milliseconds since the epoch, modelled as Nat; JavaScript
Date arithmetic on a single timezone is modelled with local midnight at
multiples of msPerDay.  Database collections are association lists keyed
by numeric ids; the attendance collection is the insertion-ordered list
of records.  Each controller returns its outcome together with the
post-state, mirroring the request/response cycle.
-/

namespace Sadat

/-- milliseconds in one calendar day. -/
def msPerDay : Nat := 86400000

/-- offset of 23:59:59.000 from midnight, in milliseconds: the upper end
of the duplicate-query window built by the controllers via
new Date(y, m, d, 23, 59, 59). -/
def endOfDayOffset : Nat := 86399000

/-- midnight of the calendar day containing timestamp t, as built by
new Date(getFullYear, getMonth, getDate). -/
def startOfDay (t : Nat) : Nat := (t / msPerDay) * msPerDay

/-- the end bound 23:59:59.000 of the calendar day containing t. -/
def endOfDay (t : Nat) : Nat := startOfDay t + endOfDayOffset

/-- two timestamps fall on the same calendar day. -/
def sameDay (t1 t2 : Nat) : Prop := t1 / msPerDay = t2 / msPerDay

/-- attendance status enum of src/models/Attendance.js. -/
inductive AttStatus
  | present
  | absent
  | late
  | excused
deriving DecidableEq, Repr

/-- provenance tag recordedBy of src/models/Attendance.js. -/
inductive Source
  | qr_scan
  | manual
  | adminTag
deriving DecidableEq, Repr

/-- one attendance document: student/group/doctor refs, the lecture
timestamp in milliseconds, status and provenance. -/
structure AttRecord where
  student : Nat
  group : Nat
  doctor : Nat
  lectureDate : Nat
  status : AttStatus
  recordedBy : Source
deriving DecidableEq, Repr

/-- the fields of a student document used by the recording paths. -/
structure StudentDoc where
  group : Nat
  isActive : Bool
deriving DecidableEq, Repr

/-- the fields of a doctor document used by the recording paths. -/
structure DoctorDoc where
  assignedGroups : List Nat
deriving DecidableEq, Repr

/-- role of the authenticated caller as seen by the controllers (the
checks branch only on whether the role string equals doctor). -/
inductive Role
  | doctor
  | adminRole
deriving DecidableEq, Repr

/-- the authenticated request user (req.user). -/
structure Caller where
  id : Nat
  role : Role
deriving DecidableEq, Repr

/-- the database state visible to the attendance controllers. -/
structure DB where
  students : List (Nat × StudentDoc)
  doctors : List (Nat × DoctorDoc)
  attendance : List AttRecord
deriving DecidableEq, Repr

/-- the Attendance.findOne filter used by all three recording paths:
same student, same group, lectureDate within [startOfDay, endOfDay] of
the supplied timestamp. -/
def matchesDuplicate (sid gid t : Nat) (r : AttRecord) : Bool :=
  r.student == sid && r.group == gid &&
    decide (startOfDay t ≤ r.lectureDate) && decide (r.lectureDate ≤ endOfDay t)

/-- Attendance.findOne over the day window of t. -/
def findDuplicate (att : List AttRecord) (sid gid t : Nat) : Option AttRecord :=
  att.find? (matchesDuplicate sid gid t)

/-- outcome of a single recording request, mirroring the HTTP responses:
created 201, notFound 404, inactiveAccount 400, notInGroup 400,
notAssigned 403, duplicateForDay 409, and serverError 500 for the
uncaught TypeError when a doctor-role caller has no doctor document. -/
inductive RecordOutcome
  | created (r : AttRecord)
  | notFound
  | inactiveAccount
  | notInGroup
  | notAssigned
  | duplicateForDay
  | serverError
deriving DecidableEq, Repr

/-- the shared tail of every recording path: run the duplicate query
over the day window of t; an existing record yields the 409 outcome and
leaves the store unchanged, otherwise the new record (with the given
creator, status and provenance) is appended. -/
def recordCreate (db : DB) (cid sid gid t : Nat) (st : AttStatus)
    (src : Source) : RecordOutcome × DB :=
  match findDuplicate db.attendance sid gid t with
  | some _ => (.duplicateForDay, db)
  | none =>
    let r : AttRecord :=
      { student := sid, group := gid, doctor := cid,
        lectureDate := t, status := st, recordedBy := src }
    (.created r, { db with attendance := db.attendance ++ [r] })

/-- AttendanceController.scanQRCode after QR parsing: sid is the
studentId carried by the parsed payload and now the scan time.  Checks
in source order: student lookup, isActive, group membership, doctor
assignment, duplicate window on today; on success a present/qr_scan
record timestamped now is appended. -/
def scanQRCode (db : DB) (c : Caller) (sid gid now : Nat) :
    RecordOutcome × DB :=
  match db.students.lookup sid with
  | none => (.notFound, db)
  | some s =>
    if !s.isActive then (.inactiveAccount, db)
    else if s.group != gid then (.notInGroup, db)
    else
      match db.doctors.lookup c.id, c.role with
      | none, .doctor => (.serverError, db)
      | some d, .doctor =>
        if !(d.assignedGroups.contains gid) then (.notAssigned, db)
        else recordCreate db c.id sid gid now .present .qr_scan
      | _, .adminRole => recordCreate db c.id sid gid now .present .qr_scan

/-- AttendanceController.recordAttendance (the manual path): checks in
source order are student lookup, group membership, doctor assignment and
the duplicate window of the supplied lectureDate; the source performs no
isActive check on this path.  On success a record with the supplied
status, manual tag and the supplied timestamp is appended. -/
def recordAttendance (db : DB) (c : Caller) (sid gid : Nat)
    (status : AttStatus) (lectureDate : Nat) : RecordOutcome × DB :=
  match db.students.lookup sid with
  | none => (.notFound, db)
  | some s =>
    if s.group != gid then (.notInGroup, db)
    else
      match c.role with
      | .adminRole => recordCreate db c.id sid gid lectureDate status .manual
      | .doctor =>
        match db.doctors.lookup c.id with
        | none => (.serverError, db)
        | some d =>
          if !(d.assignedGroups.contains gid) then (.notAssigned, db)
          else recordCreate db c.id sid gid lectureDate status .manual

/-- one entry of the bulk attendanceList (studentId and status). -/
structure BulkItem where
  studentId : Nat
  status : AttStatus
deriving DecidableEq, Repr

/-- accumulated state of the bulk loop: studentIds pushed to results,
studentIds pushed to errors, and the evolving store. -/
structure BulkAcc where
  successful : List Nat
  failed : List Nat
  db : DB
deriving DecidableEq, Repr

/-- one iteration of the bulk loop of bulkRecordAttendance: only the
duplicate window of the shared lectureDate is checked; an existing
record pushes the studentId to errors and leaves the store unchanged,
otherwise a manual record is created.  No student lookup, isActive or
group-membership check occurs per item in the source. -/
def bulkStep (c : Caller) (gid lectureDate : Nat)
    (acc : BulkAcc) (item : BulkItem) : BulkAcc :=
  match recordCreate acc.db c.id item.studentId gid lectureDate
      item.status .manual with
  | (.created _, db') =>
    { acc with successful := acc.successful ++ [item.studentId], db := db' }
  | _ => { acc with failed := acc.failed ++ [item.studentId] }

/-- result of AttendanceController.bulkRecordAttendance: the whole batch
is rejected up front when a doctor caller is not assigned to the group
(403) or has no doctor document (uncaught TypeError, 500); otherwise
every list entry is processed by bulkStep in order. -/
inductive BulkResult
  | notAssigned
  | serverError
  | processed (successful failed : List Nat) (db : DB)
deriving DecidableEq, Repr

/-- AttendanceController.bulkRecordAttendance. -/
def bulkRecordAttendance (db : DB) (c : Caller) (gid lectureDate : Nat)
    (items : List BulkItem) : BulkResult :=
  let run : BulkResult :=
    let acc := items.foldl (bulkStep c gid lectureDate)
      { successful := [], failed := [], db := db }
    .processed acc.successful acc.failed acc.db
  match c.role with
  | .adminRole => run
  | .doctor =>
    match db.doctors.lookup c.id with
    | none => .serverError
    | some d =>
      if !(d.assignedGroups.contains gid) then .notAssigned else run

/-!  Session / lockout layer: src/services/authService.js and the
POST /login handler of src/routes/auth.js.  An account document carries
the lockout counters; a password is modelled as a Nat compared for
equality (bcrypt compare in the source).  lockUntil is an optional
timestamp; JavaScript truthiness of the counters is modelled explicitly
(0 and undefined are falsy).  -/

/-- the account fields read and written by the login flow. -/
structure Account where
  passwordHash : Nat
  isActive : Bool
  loginAttempts : Nat
  lockUntil : Option Nat
  lastLoginAt : Option Nat
deriving DecidableEq, Repr

/-- milliseconds in the 30 minute lockout window. -/
def lockWindowMs : Nat := 30 * 60 * 1000

/-- AuthService.isAccountLocked: returns false when loginAttempts or
lockUntil is falsy (0, undefined), otherwise tests
loginAttempts at least 5 and lockUntil strictly after now. -/
def isAccountLocked (a : Account) (now : Nat) : Bool :=
  match a.lockUntil with
  | none => false
  | some lu =>
    if a.loginAttempts == 0 || lu == 0 then false
    else decide (5 ≤ a.loginAttempts) && decide (now < lu)

/-- AuthService.handleFailedLogin: increment the counter; on reaching 5
set lockUntil to now plus 30 minutes. -/
def handleFailedLogin (a : Account) (now : Nat) : Account :=
  let attempts := a.loginAttempts + 1
  { a with loginAttempts := attempts,
           lockUntil :=
             if 5 ≤ attempts then some (now + lockWindowMs) else a.lockUntil }

/-- AuthService.handleSuccessfulLogin: reset the counter, clear
lockUntil, stamp lastLoginAt. -/
def handleSuccessfulLogin (a : Account) (now : Nat) : Account :=
  { a with loginAttempts := 0, lockUntil := none, lastLoginAt := some now }

/-- login outcomes of the POST /login handler: 423 locked, 401
deactivated, 401 invalid credentials, 200 success. -/
inductive LoginResult
  | success
  | invalidCredentials
  | accountLocked
  | accountInactive
deriving DecidableEq, Repr

/-- the POST /login handler for a found account: lock check first, then
isActive, then the password comparison driving the counter updates. -/
def login (a : Account) (password now : Nat) : LoginResult × Account :=
  if isAccountLocked a now then (.accountLocked, a)
  else if !a.isActive then (.accountInactive, a)
  else if password != a.passwordHash then
    (.invalidCredentials, handleFailedLogin a now)
  else
    (.success, handleSuccessfulLogin a now)

/-- the persisted account document.  Only paths declared by a schema
survive a save, and none of the account schemas (src/models/Student.js,
Doctor.js, Admin.js) declares loginAttempts, lockUntil or lastLoginAt;
as far as the login flow is concerned the stored document holds the
password hash and the active flag. -/
structure StoredAccount where
  passwordHash : Nat
  isActive : Bool
deriving DecidableEq, Repr

/-- reading the stored document at the start of a request: the
undeclared counter paths come back undefined, which the login flow
treats exactly like 0 attempts and no lockUntil (isAccountLocked tests
JavaScript falsiness and handleFailedLogin initialises a missing
counter to 0 before incrementing). -/
def readAccount (st : StoredAccount) : Account :=
  { passwordHash := st.passwordHash, isActive := st.isActive,
    loginAttempts := 0, lockUntil := none, lastLoginAt := none }

/-- mongoose strict-mode save: assignments to paths not declared in the
schema are dropped, so only the schema paths of the in-memory document
are written back. -/
def persistSave (a : Account) : StoredAccount :=
  { passwordHash := a.passwordHash, isActive := a.isActive }

/-- one POST /login request against the stored account: the handler
re-reads the document, runs the login flow, and the handlers' saves
keep only the schema paths. -/
def loginRequest (st : StoredAccount) (password now : Nat) :
    LoginResult × StoredAccount :=
  let r := login (readAccount st) password now
  (r.1, persistSave r.2)

/-- consecutive login requests with the same (wrong) password at the
given sequence of times, each seeing the stored document the previous
request left behind. -/
def failRequests (st : StoredAccount) (w : Nat) : List Nat → StoredAccount
  | [] => st
  | t :: ts => failRequests (loginRequest st w t).2 w ts

/-!  QR freshness: QRService.validateQRCode of src/services/qrService.js.
The generatedAt field of a parsed JSON payload is an arbitrary value; in
JavaScript, currentTime - generatedAt is NaN whenever generatedAt is
missing or not coercible to a number, and every comparison with NaN is
false.  A JavaScript numeric value is modelled as an Int or NaN.  -/

/-- a JavaScript number: an integer or NaN (the result of coercing a
missing or non-numeric generatedAt). -/
inductive JsNum
  | num (v : Int)
  | nan
deriving DecidableEq, Repr

/-- JavaScript subtraction: NaN is absorbing. -/
def jsSub (a b : JsNum) : JsNum :=
  match a, b with
  | .num x, .num y => .num (x - y)
  | _, _ => .nan

/-- JavaScript strict greater-than: any comparison with NaN is false. -/
def jsGt (a b : JsNum) : Bool :=
  match a, b with
  | .num x, .num y => decide (y < x)
  | _, _ => false

/-- the fixed maximum QR age: 365 * 24 * 60 * 60 * 1000 milliseconds. -/
def maxQRAgeMs : Int := 365 * 24 * 60 * 60 * 1000

/-- QRService.validateQRCode: computes qrAge = now - generatedAt and
throws Expired exactly when qrAge > maxAge; returns true otherwise. -/
def validateQRCode (generatedAt : JsNum) (now : Int) : Bool :=
  !(jsGt (jsSub (.num now) generatedAt) (.num maxQRAgeMs))

/-!  Reporting percentages.  The source computes them on JavaScript
floats; the claims are about the exact rounding rule and the zero-total
guard, modelled over the rationals.  -/

/-- JavaScript Math.round: round half toward positive infinity. -/
def jsMathRound (x : ℚ) : Int := Int.floor (x + 1 / 2)

/-- Number.prototype.toFixed(1) as a numeric value: nearest multiple of
one tenth, ties toward the larger value. -/
def jsToFixed1 (x : ℚ) : ℚ := (jsMathRound (x * 10) : ℚ) / 10

/-- AttendanceController.getAttendanceStats: Math.round of
(present / total) * 100 * 100 divided by 100 when total > 0, else 0. -/
def statsAttendancePercentage (present total : Nat) : ℚ :=
  if 0 < total then
    (jsMathRound ((present : ℚ) / (total : ℚ) * 100 * 100) : ℚ) / 100
  else 0

/-- ReportsController.getStudentAttendanceReport: the percentage is
(present / total) * 100 guarded by total > 0, then Math.round of its
hundredfold divided by 100. -/
def studentReportPercentage (present total : Nat) : ℚ :=
  let pct : ℚ := if 0 < total then (present : ℚ) / (total : ℚ) * 100 else 0
  (jsMathRound (pct * 100) : ℚ) / 100

/-- StudentController.getStudentProfile: toFixed(1) of
(attended / total * 100) when total > 0, else 0. -/
def studentProfilePercentage (attended total : Nat) : ℚ :=
  if 0 < total then jsToFixed1 ((attended : ℚ) / (total : ℚ) * 100)
  else 0

/-- Modelled from the spec: the percentage rounded to two decimal
places (half up), the rule the specification states for every reporting
endpoint. -/
def roundTwoDecimals (x : ℚ) : ℚ := (Int.floor (x * 100 + 1 / 2) : ℚ) / 100

/-!  Day-granularity uniqueness (claim C3).  The invariant provable for
the reachable stores is bounded by the query window: among records of
one (student, group, calendar day), at most one can carry a time of day
inside [00:00:00.000, 23:59:59.000], because any such record is seen by
the duplicate query of every later same-day insertion.  -/

/-- two records concern the same student, group and calendar day. -/
def sameDayKey (r1 r2 : AttRecord) : Prop :=
  r1.student = r2.student ∧ r1.group = r2.group ∧
    sameDay r1.lectureDate r2.lectureDate

/-- the time of day of a record lies inside the duplicate-query window
of its own day. -/
def inWindowOfItsDay (r : AttRecord) : Prop :=
  r.lectureDate % msPerDay ≤ endOfDayOffset

/-- the day-uniqueness invariant maintained by the recording paths: no
two positions of the store hold same-day records for one (student,
group) that both lie inside the query window of that day. -/
def DayUnique (att : List AttRecord) : Prop :=
  att.Pairwise (fun r1 r2 =>
    sameDayKey r1 r2 → ¬(inWindowOfItsDay r1 ∧ inWindowOfItsDay r2))

/-- Modelled from the spec: the invariant exactly as the specification
words it, at most one non-absent record per (student, group, calendar
day), to be compared with what the recording paths actually maintain. -/
def SpecNonAbsentDayUnique (att : List AttRecord) : Prop :=
  att.Pairwise (fun r1 r2 =>
    r1.status ≠ .absent → r2.status ≠ .absent → ¬sameDayKey r1 r2)

/-!  Concrete fixtures used by counterexamples and witnesses.  Each
claim keeps its own fixture.  -/

/-- fixture for C2: student 1 is active in group 5, doctor 2 is
assigned to group 5, empty store. -/
def dbC2 : DB :=
  { students := [(1, { group := 5, isActive := true })],
    doctors := [(2, { assignedGroups := [5] })],
    attendance := [] }

/-- the doctor caller used by the C2 fixture. -/
def callerC2 : Caller := { id := 2, role := .doctor }

/-- the C2 fixture after a first successful manual recording at
timestamp 1000. -/
def dbC2after : DB :=
  { students := [(1, { group := 5, isActive := true })],
    doctors := [(2, { assignedGroups := [5] })],
    attendance := [⟨1, 5, 2, 1000, .present, .manual⟩] }

/-- fixture for C3, identical in content to the C2 fixture. -/
def dbC3 : DB :=
  { students := [(1, { group := 5, isActive := true })],
    doctors := [(2, { assignedGroups := [5] })],
    attendance := [] }

/-- the doctor caller used by the C3 fixture. -/
def callerC3 : Caller := { id := 2, role := .doctor }

/-- fixture for C4: student 1 is active but belongs to group 7, doctor
2 is assigned to group 5, empty store. -/
def dbC4 : DB :=
  { students := [(1, { group := 7, isActive := true })],
    doctors := [(2, { assignedGroups := [5] })],
    attendance := [] }

/-- the doctor caller used by the C4 fixture. -/
def callerC4 : Caller := { id := 2, role := .doctor }

/-- fixture for C5: student 1 belongs to group 5 but is disabled,
doctor 2 is assigned to group 5, empty store. -/
def dbC5 : DB :=
  { students := [(1, { group := 5, isActive := false })],
    doctors := [(2, { assignedGroups := [5] })],
    attendance := [] }

/-- the doctor caller used by the C5 fixture. -/
def callerC5 : Caller := { id := 2, role := .doctor }

/-- fixture for C6: student 1 is active in group 5, doctor 2 is
assigned only to group 9, empty store. -/
def dbC6 : DB :=
  { students := [(1, { group := 5, isActive := true })],
    doctors := [(2, { assignedGroups := [9] })],
    attendance := [] }

/-- the doctor caller used by the C6 fixture. -/
def callerC6 : Caller := { id := 2, role := .doctor }

/-!  Helper lemmas.  -/

/-- membership in the duplicate-query window of t is the same as being
on the calendar day of t with a time of day at most 23:59:59.000. -/
lemma window_mem_iff (q t : Nat) :
    (startOfDay t ≤ q ∧ q ≤ endOfDay t) ↔
    (q / msPerDay = t / msPerDay ∧ q % msPerDay ≤ endOfDayOffset) := by
  simp only [startOfDay, endOfDay, msPerDay, endOfDayOffset]
  omega

/-- unfolding of the duplicate-query filter. -/
lemma matchesDuplicate_iff (sid gid t : Nat) (r : AttRecord) :
    matchesDuplicate sid gid t r = true ↔
    (r.student = sid ∧ r.group = gid ∧
      startOfDay t ≤ r.lectureDate ∧ r.lectureDate ≤ endOfDay t) := by
  simp [matchesDuplicate, and_assoc]

/-- an empty duplicate query means no stored record passes the filter. -/
lemma findDuplicate_eq_none_iff (att : List AttRecord) (sid gid t : Nat) :
    findDuplicate att sid gid t = none ↔
    ∀ r ∈ att, matchesDuplicate sid gid t r = false := by
  simp [findDuplicate, List.find?_eq_none]

/-- a record of the same student and group whose timestamp shares the
calendar day of t and sits inside the window makes the duplicate query
succeed. -/
lemma findDuplicate_isSome_of_mem (att : List AttRecord) (sid gid t : Nat)
    (r : AttRecord) (hmem : r ∈ att) (hstu : r.student = sid)
    (hgrp : r.group = gid) (hday : sameDay r.lectureDate t)
    (hwin : r.lectureDate % msPerDay ≤ endOfDayOffset) :
    ∃ q, findDuplicate att sid gid t = some q := by
  rw [← Option.isSome_iff_exists, findDuplicate, List.find?_isSome]
  refine ⟨r, hmem, ?_⟩
  rw [matchesDuplicate_iff]
  exact ⟨hstu, hgrp, (window_mem_iff r.lectureDate t).mpr ⟨hday, hwin⟩⟩

/-- appending a record that passed the duplicate query preserves the
day-uniqueness invariant. -/
lemma dayUnique_append (att : List AttRecord) (r : AttRecord)
    (hInv : DayUnique att)
    (hdup : findDuplicate att r.student r.group r.lectureDate = none) :
    DayUnique (att ++ [r]) := by
  rw [DayUnique, List.pairwise_append]
  refine ⟨hInv, List.pairwise_singleton _ _, ?_⟩
  intro q hq r' hr'
  simp only [List.mem_singleton] at hr'
  rw [hr']
  rintro ⟨hstu, hgrp, hday⟩ ⟨hw1, hw2⟩
  have hm := (findDuplicate_eq_none_iff att r.student r.group
    r.lectureDate).mp hdup q hq
  rw [← Bool.not_eq_true, matchesDuplicate_iff] at hm
  exact hm ⟨hstu, hgrp,
    (window_mem_iff q.lectureDate r.lectureDate).mpr ⟨hday, hw1⟩⟩

/-- an empty duplicate query makes the create step append the record. -/
lemma recordCreate_none (db : DB) (cid sid gid t : Nat) (st : AttStatus)
    (src : Source)
    (hdup : findDuplicate db.attendance sid gid t = none) :
    recordCreate db cid sid gid t st src =
      (.created ⟨sid, gid, cid, t, st, src⟩,
       { db with attendance :=
          db.attendance ++ [⟨sid, gid, cid, t, st, src⟩] }) := by
  unfold recordCreate
  rw [hdup]

/-- a non-empty duplicate query makes the create step fail with the 409
outcome and leave the store unchanged. -/
lemma recordCreate_some (db : DB) (cid sid gid t : Nat) (st : AttStatus)
    (src : Source) (q : AttRecord)
    (hdup : findDuplicate db.attendance sid gid t = some q) :
    recordCreate db cid sid gid t st src = (.duplicateForDay, db) := by
  unfold recordCreate
  rw [hdup]

/-- inversion of the shared create step: the created record carries the
request fields, the store only gained that record, and the duplicate
query was empty. -/
lemma recordCreate_created (db db' : DB) (cid sid gid t : Nat)
    (st : AttStatus) (src : Source) (r : AttRecord)
    (h : recordCreate db cid sid gid t st src = (.created r, db')) :
    r = ⟨sid, gid, cid, t, st, src⟩ ∧
    db' = { db with attendance := db.attendance ++ [r] } ∧
    findDuplicate db.attendance sid gid t = none := by
  unfold recordCreate at h
  cases hfd : findDuplicate db.attendance sid gid t with
  | some q => rw [hfd] at h; simp at h
  | none =>
    rw [hfd] at h
    simp only [Prod.mk.injEq, RecordOutcome.created.injEq] at h
    obtain ⟨h1, h2⟩ := h
    refine ⟨h1.symm, ?_, rfl⟩
    rw [← h2, ← h1]

/-- inversion of a successful manual recording: the created record
carries the request fields, the store only gained that record, the
duplicate query was empty, and the student was found in the group. -/
lemma recordAttendance_created (db db' : DB) (c : Caller)
    (sid gid t : Nat) (st : AttStatus) (r : AttRecord)
    (h : recordAttendance db c sid gid st t = (.created r, db')) :
    r = ⟨sid, gid, c.id, t, st, .manual⟩ ∧
    db' = { db with attendance := db.attendance ++ [r] } ∧
    findDuplicate db.attendance sid gid t = none ∧
    ∃ s, db.students.lookup sid = some s ∧ s.group = gid := by
  unfold recordAttendance at h
  cases hlk : db.students.lookup sid with
  | none => rw [hlk] at h; simp at h
  | some s =>
    rw [hlk] at h
    simp only [] at h
    split_ifs at h with hg
    · simp at h
    · have hg' : s.group = gid := by simpa using hg
      have hcr : recordCreate db c.id sid gid t st .manual =
          (.created r, db') := by
        cases hrole : c.role with
        | adminRole =>
          rw [hrole] at h
          simpa using h
        | doctor =>
          rw [hrole] at h
          cases hdl : db.doctors.lookup c.id with
          | none => rw [hdl] at h; simp at h
          | some d =>
            rw [hdl] at h
            simp only [] at h
            split_ifs at h with ha
            · simp at h
            · exact h
      obtain ⟨h1, h2, h3⟩ := recordCreate_created _ _ _ _ _ _ _ _ _ hcr
      exact ⟨h1, h2, h3, s, rfl, hg'⟩

/-- the create step either appends the request record (empty duplicate
query) or reports the duplicate and leaves the store alone. -/
lemma recordCreate_cases (db : DB) (cid sid gid t : Nat) (st : AttStatus)
    (src : Source) :
    (recordCreate db cid sid gid t st src =
        (.created ⟨sid, gid, cid, t, st, src⟩,
         { db with attendance :=
            db.attendance ++ [⟨sid, gid, cid, t, st, src⟩] }) ∧
      findDuplicate db.attendance sid gid t = none) ∨
    recordCreate db cid sid gid t st src = (.duplicateForDay, db) := by
  unfold recordCreate
  cases hfd : findDuplicate db.attendance sid gid t with
  | none => exact Or.inl ⟨rfl, rfl⟩
  | some q => exact Or.inr rfl

/-- the create step preserves the day-uniqueness invariant. -/
lemma recordCreate_dayUnique (db : DB) (cid sid gid t : Nat)
    (st : AttStatus) (src : Source) (h : DayUnique db.attendance) :
    DayUnique (recordCreate db cid sid gid t st src).2.attendance := by
  rcases recordCreate_cases db cid sid gid t st src with ⟨heq, hfd⟩ | heq
  · rw [heq]
    exact dayUnique_append _ _ h hfd
  · rw [heq]
    exact h

/-- step equation for a bulk entry whose duplicate query is empty. -/
lemma bulkStep_created (c : Caller) (gid t : Nat) (acc : BulkAcc)
    (item : BulkItem)
    (heq : recordCreate acc.db c.id item.studentId gid t item.status
        .manual =
      (.created ⟨item.studentId, gid, c.id, t, item.status, .manual⟩,
       { acc.db with attendance := acc.db.attendance ++
          [⟨item.studentId, gid, c.id, t, item.status, .manual⟩] })) :
    bulkStep c gid t acc item =
      ⟨acc.successful ++ [item.studentId], acc.failed,
       { acc.db with attendance := acc.db.attendance ++
          [⟨item.studentId, gid, c.id, t, item.status, .manual⟩] }⟩ := by
  unfold bulkStep
  rw [heq]

/-- step equation for a bulk entry hitting an existing record. -/
lemma bulkStep_dup (c : Caller) (gid t : Nat) (acc : BulkAcc)
    (item : BulkItem)
    (heq : recordCreate acc.db c.id item.studentId gid t item.status
        .manual = (.duplicateForDay, acc.db)) :
    bulkStep c gid t acc item =
      ⟨acc.successful, acc.failed ++ [item.studentId], acc.db⟩ := by
  unfold bulkStep
  rw [heq]

/-- the bulk loop preserves the day-uniqueness invariant. -/
lemma bulkFold_dayUnique (c : Caller) (gid t : Nat) :
    ∀ (items : List BulkItem) (acc : BulkAcc),
      DayUnique acc.db.attendance →
      DayUnique ((items.foldl (bulkStep c gid t) acc).db.attendance) := by
  intro items
  induction items with
  | nil => exact fun acc h => h
  | cons item rest ih =>
    intro acc h
    rw [List.foldl_cons]
    rcases recordCreate_cases acc.db c.id item.studentId gid t item.status
      .manual with ⟨heq, hfd⟩ | heq
    · rw [bulkStep_created c gid t acc item heq]
      exact ih _ (dayUnique_append _ _ h hfd)
    · rw [bulkStep_dup c gid t acc item heq]
      exact ih _ h

/-- the bulk loop processes every entry: the outcome lists grow by
exactly the number of entries. -/
lemma bulkFold_counts (c : Caller) (gid t : Nat) :
    ∀ (items : List BulkItem) (acc : BulkAcc),
      (items.foldl (bulkStep c gid t) acc).successful.length +
        (items.foldl (bulkStep c gid t) acc).failed.length =
      acc.successful.length + acc.failed.length + items.length := by
  intro items
  induction items with
  | nil => intro acc; simp
  | cons item rest ih =>
    intro acc
    rw [List.foldl_cons]
    rcases recordCreate_cases acc.db c.id item.studentId gid t item.status
      .manual with ⟨heq, hfd⟩ | heq
    · rw [bulkStep_created c gid t acc item heq, ih]
      simp only [List.length_append, List.length_cons, List.length_nil]
      omega
    · rw [bulkStep_dup c gid t acc item heq, ih]
      simp only [List.length_append, List.length_cons, List.length_nil]
      omega

/-- the bulk loop only appends to the store, one record per successful
entry, and never rolls an earlier record back. -/
lemma bulkFold_store (c : Caller) (gid t : Nat) :
    ∀ (items : List BulkItem) (acc : BulkAcc),
      ∃ new : List AttRecord,
        (items.foldl (bulkStep c gid t) acc).db.attendance =
          acc.db.attendance ++ new ∧
        (items.foldl (bulkStep c gid t) acc).successful.length =
          acc.successful.length + new.length := by
  intro items
  induction items with
  | nil => intro acc; exact ⟨[], by simp, by simp⟩
  | cons item rest ih =>
    intro acc
    rw [List.foldl_cons]
    rcases recordCreate_cases acc.db c.id item.studentId gid t item.status
      .manual with ⟨heq, hfd⟩ | heq
    · rw [bulkStep_created c gid t acc item heq]
      obtain ⟨new, hatt, hlen⟩ := ih
        ⟨acc.successful ++ [item.studentId], acc.failed,
         { acc.db with attendance := acc.db.attendance ++
            [⟨item.studentId, gid, c.id, t, item.status, .manual⟩] }⟩
      refine ⟨⟨item.studentId, gid, c.id, t, item.status, .manual⟩ :: new,
        ?_, ?_⟩
      · rw [hatt]
        simp
      · rw [hlen]
        simp only [List.length_append, List.length_cons, List.length_nil]
        omega
    · rw [bulkStep_dup c gid t acc item heq]
      obtain ⟨new, hatt, hlen⟩ := ih
        ⟨acc.successful, acc.failed ++ [item.studentId], acc.db⟩
      exact ⟨new, hatt, hlen⟩

/-- the scan path preserves the day-uniqueness invariant. -/
lemma scanQRCode_dayUnique (db : DB) (c : Caller) (sid gid now : Nat)
    (h : DayUnique db.attendance) :
    DayUnique (scanQRCode db c sid gid now).2.attendance := by
  unfold scanQRCode
  split
  · exact h
  · split_ifs with h1 h2
    · exact h
    · exact h
    · split
      · exact h
      · split_ifs with h3
        · exact h
        · exact recordCreate_dayUnique _ _ _ _ _ _ _ h
      · exact recordCreate_dayUnique _ _ _ _ _ _ _ h

/-- the manual path preserves the day-uniqueness invariant. -/
lemma recordAttendance_dayUnique (db : DB) (c : Caller) (sid gid t : Nat)
    (st : AttStatus) (h : DayUnique db.attendance) :
    DayUnique (recordAttendance db c sid gid st t).2.attendance := by
  unfold recordAttendance
  split
  · exact h
  · split_ifs with h1
    · exact h
    · split
      · exact recordCreate_dayUnique _ _ _ _ _ _ _ h
      · split
        · exact h
        · split_ifs with h2
          · exact h
          · exact recordCreate_dayUnique _ _ _ _ _ _ _ h

/-- inversion of a processed bulk call: the outcome lists and the final
store come from the fold over the entries. -/
lemma bulkRecordAttendance_processed (db : DB) (c : Caller) (gid t : Nat)
    (items : List BulkItem) (succ failed : List Nat) (db' : DB)
    (h : bulkRecordAttendance db c gid t items = .processed succ failed db') :
    (items.foldl (bulkStep c gid t) ⟨[], [], db⟩).successful = succ ∧
    (items.foldl (bulkStep c gid t) ⟨[], [], db⟩).failed = failed ∧
    (items.foldl (bulkStep c gid t) ⟨[], [], db⟩).db = db' := by
  unfold bulkRecordAttendance at h
  cases hrole : c.role with
  | adminRole =>
    rw [hrole] at h
    simp only [BulkResult.processed.injEq] at h
    exact h
  | doctor =>
    rw [hrole] at h
    cases hdl : db.doctors.lookup c.id with
    | none => rw [hdl] at h; simp at h
    | some d =>
      rw [hdl] at h
      simp only [] at h
      split_ifs at h with ha
      simp only [BulkResult.processed.injEq] at h
      exact h

/-!  Claims.  -/

/-- C7: for a numeric generatedAt, freshness validation fails exactly
when now - generatedAt exceeds 365 * 24 * 60 * 60 * 1000 milliseconds;
an age one second below the threshold passes and an age above it fails
with Expired. -/
theorem qr_freshness_threshold (g now : Int) :
    (validateQRCode (.num g) now = false ↔ maxQRAgeMs < now - g) ∧
    validateQRCode (.num (now - (maxQRAgeMs - 1000))) now = true ∧
    validateQRCode (.num (now - (maxQRAgeMs + 1))) now = false := by
  refine ⟨?_, ?_, ?_⟩
  · simp [validateQRCode, jsSub, jsGt]
  · simp [validateQRCode, jsSub, jsGt, maxQRAgeMs]
  · simp [validateQRCode, jsSub, jsGt, maxQRAgeMs]

/-- C10: freshness validation accepts a payload whose generatedAt is
missing or non-numeric (NaN comparisons are false), accepts every
future generatedAt, and rejects only when now - generatedAt strictly
exceeds the one-year maximum. -/
theorem qr_freshness_nan_and_future (now : Int) (k : Nat) :
    validateQRCode .nan now = true ∧
    validateQRCode (.num (now + k)) now = true ∧
    (∀ g : Int, validateQRCode (.num g) now = false ↔ maxQRAgeMs < now - g) := by
  refine ⟨rfl, ?_, ?_⟩
  · simp [validateQRCode, jsSub, jsGt, maxQRAgeMs]
    omega
  · intro g
    simp [validateQRCode, jsSub, jsGt]

/-- C9: the lock predicate holds exactly when loginAttempts is at least
5 and lockUntil is present and strictly after now, and the login
handler reports AccountLocked exactly when the lock predicate holds. -/
theorem lock_check_iff (a : Account) (pw now : Nat) :
    (isAccountLocked a now = true ↔
      5 ≤ a.loginAttempts ∧ ∃ lu, a.lockUntil = some lu ∧ now < lu) ∧
    ((login a pw now).1 = .accountLocked ↔ isAccountLocked a now = true) := by
  constructor
  · cases h : a.lockUntil with
    | none => simp [isAccountLocked, h]
    | some lu =>
      have hred : isAccountLocked a now =
          if a.loginAttempts == 0 || lu == 0 then false
          else decide (5 ≤ a.loginAttempts) && decide (now < lu) := by
        unfold isAccountLocked
        rw [h]
      rw [hred]
      constructor
      · intro hb
        split_ifs at hb with hz
        simp only [Bool.and_eq_true, decide_eq_true_eq] at hb
        exact ⟨hb.1, lu, rfl, hb.2⟩
      · rintro ⟨h5, lu', hlu', hnow⟩
        injection hlu' with he
        subst he
        have hz : (a.loginAttempts == 0 || lu == 0) = false := by
          simp only [Bool.or_eq_false_iff, beq_eq_false_iff_ne, ne_eq]
          omega
        rw [hz]
        simp [h5, hnow]
  · unfold login
    split_ifs with h1 h2 h3 <;> simp [h1]

/-- C1: the claimed lockout does not exist in the program, because
loginAttempts and lockUntil are not schema paths and are dropped by
every save.  The failed-login handler does compute the increment in
memory, but the stored document comes back unchanged from the request,
so five consecutive wrong-password requests leave the account exactly
as it was and a sixth request with the correct password succeeds inside
any window instead of failing with AccountLocked. -/
theorem lockout_never_persists (p w t t1 t2 t3 t4 t5 t6 : Nat)
    (hw : w ≠ p) :
    (login (readAccount ⟨p, true⟩) w t).2.loginAttempts = 1 ∧
    persistSave (login (readAccount ⟨p, true⟩) w t).2 = ⟨p, true⟩ ∧
    loginRequest ⟨p, true⟩ w t = (.invalidCredentials, ⟨p, true⟩) ∧
    failRequests ⟨p, true⟩ w [t1, t2, t3, t4, t5] = ⟨p, true⟩ ∧
    (loginRequest ⟨p, true⟩ p t6).1 = .success := by
  have hbne : (w != p) = true := bne_iff_ne.mpr hw
  have hstep : ∀ tt : Nat, login (readAccount ⟨p, true⟩) w tt =
      (.invalidCredentials, ⟨p, true, 1, none, none⟩) := by
    intro tt
    simp [login, readAccount, isAccountLocked, handleFailedLogin, hbne]
  have hreq : ∀ tt : Nat, loginRequest ⟨p, true⟩ w tt =
      (.invalidCredentials, ⟨p, true⟩) := by
    intro tt
    simp [loginRequest, hstep, persistSave]
  refine ⟨?_, ?_, hreq t, ?_, ?_⟩
  · rw [hstep t]
  · rw [hstep t]
    rfl
  · simp [failRequests, hreq]
  · simp [loginRequest, login, readAccount, isAccountLocked,
      handleSuccessfulLogin]

/-- C1 witness: the unlocked-forever run at concrete inputs. -/
theorem lockout_never_persists_witness :
    (login (readAccount ⟨0, true⟩) 1 10).2.loginAttempts = 1 ∧
    persistSave (login (readAccount ⟨0, true⟩) 1 10).2 = ⟨0, true⟩ ∧
    loginRequest ⟨0, true⟩ 1 10 = (.invalidCredentials, ⟨0, true⟩) ∧
    failRequests ⟨0, true⟩ 1 [10, 20, 30, 40, 50] = ⟨0, true⟩ ∧
    (loginRequest ⟨0, true⟩ 0 60).1 = .success :=
  lockout_never_persists 0 1 10 10 20 30 40 50 60 (by decide)

/-- C6: a doctor-role caller whose assignedGroups set does not contain
the target group receives NotAssigned from both the scan path and the
manual path, with the store unchanged, whenever the student exists, is
active and belongs to the group. -/
theorem notAssigned_rejection (db : DB) (c : Caller) (sid gid now t : Nat)
    (st : AttStatus) (s : StudentDoc) (d : DoctorDoc)
    (hrole : c.role = .doctor)
    (hd : db.doctors.lookup c.id = some d)
    (hng : d.assignedGroups.contains gid = false)
    (hs : db.students.lookup sid = some s)
    (hact : s.isActive = true)
    (hgrp : s.group = gid) :
    scanQRCode db c sid gid now = (.notAssigned, db) ∧
    recordAttendance db c sid gid st t = (.notAssigned, db) := by
  have hng' : gid ∉ d.assignedGroups := by simpa using hng
  constructor
  · unfold scanQRCode
    rw [hs, hd, hrole]
    simp [hact, hgrp, hng']
  · unfold recordAttendance
    rw [hs, hrole, hd]
    simp [hgrp, hng']

/-- C6 witness: the unassigned doctor 2 is rejected on group 5. -/
theorem notAssigned_rejection_witness :
    scanQRCode dbC6 callerC6 1 5 1000 = (.notAssigned, dbC6) ∧
    recordAttendance dbC6 callerC6 1 5 .present 1000 =
      (.notAssigned, dbC6) :=
  notAssigned_rejection dbC6 callerC6 1 5 1000 1000 .present
    ⟨5, true⟩ ⟨[9]⟩ rfl (by decide) (by decide) (by decide) rfl rfl

/-- C5 counterexample: the manual path records attendance for a
disabled student, contradicting the claim that every record operation
fails with InactiveAccount for a disabled student. -/
theorem inactive_student_manual_counterexample :
    (recordAttendance dbC5 callerC5 1 5 .present 1000).1 =
      .created ⟨1, 5, 2, 1000, .present, .manual⟩ ∧
    (recordAttendance dbC5 callerC5 1 5 .present 1000).2.attendance =
      [⟨1, 5, 2, 1000, .present, .manual⟩] := by
  decide

/-- C5 amended: only the QR-scan path rejects a disabled student with
InactiveAccount (store unchanged); the manual path performs no isActive
check and creates the record whenever its other checks pass. -/
theorem inactive_student_scan_only (db : DB) (c : Caller)
    (sid gid now : Nat) (s : StudentDoc)
    (hs : db.students.lookup sid = some s) (hinact : s.isActive = false) :
    scanQRCode db c sid gid now = (.inactiveAccount, db) ∧
    (∀ (st : AttStatus) (t : Nat),
      s.group = gid →
      (c.role = .doctor → ∃ d, db.doctors.lookup c.id = some d ∧
        d.assignedGroups.contains gid = true) →
      findDuplicate db.attendance sid gid t = none →
      recordAttendance db c sid gid st t =
        (.created ⟨sid, gid, c.id, t, st, .manual⟩,
         { db with attendance :=
            db.attendance ++ [⟨sid, gid, c.id, t, st, .manual⟩] })) := by
  constructor
  · unfold scanQRCode
    rw [hs]
    simp [hinact]
  · intro st t hgrp hcaller hdup
    unfold recordAttendance
    rw [hs]
    simp only [hgrp, bne_self_eq_false, Bool.false_eq_true, if_false]
    cases hrole : c.role with
    | adminRole => exact recordCreate_none db c.id sid gid t st .manual hdup
    | doctor =>
      obtain ⟨d, hd, hin⟩ := hcaller hrole
      rw [hd]
      simp only [hin, Bool.not_true, Bool.false_eq_true, if_false]
      exact recordCreate_none db c.id sid gid t st .manual hdup

/-- C5 witness: scan rejects the disabled student 1 while the manual
path creates a record for the same student. -/
theorem inactive_student_scan_only_witness :
    scanQRCode dbC5 callerC5 1 5 1000 = (.inactiveAccount, dbC5) ∧
    recordAttendance dbC5 callerC5 1 5 .present 1000 =
      (.created ⟨1, 5, 2, 1000, .present, .manual⟩,
       { dbC5 with attendance := [⟨1, 5, 2, 1000, .present, .manual⟩] }) :=
  ⟨(inactive_student_scan_only dbC5 callerC5 1 5 1000 ⟨5, false⟩
      (by decide) rfl).1,
   (inactive_student_scan_only dbC5 callerC5 1 5 1000 ⟨5, false⟩
      (by decide) rfl).2 .present 1000 rfl
      (fun _ => ⟨⟨[5]⟩, by decide, by decide⟩) (by decide)⟩

/-- C2 counterexample: a first manual recording timestamped inside the
final 999 ms of the day (23:59:59.500) escapes the duplicate window
[00:00:00.000, 23:59:59.000], so a second same-day call succeeds and a
second record for the same (student, group, day) is stored, against the
claim that the second call must fail with DuplicateForDay. -/
theorem duplicate_window_gap_counterexample :
    (recordAttendance dbC2 callerC2 1 5 .present 86399500).1 =
      .created ⟨1, 5, 2, 86399500, .present, .manual⟩ ∧
    (recordAttendance (recordAttendance dbC2 callerC2 1 5 .present
        86399500).2 callerC2 1 5 .present 43200000).1 =
      .created ⟨1, 5, 2, 43200000, .present, .manual⟩ ∧
    (recordAttendance (recordAttendance dbC2 callerC2 1 5 .present
        86399500).2 callerC2 1 5 .present 43200000).2.attendance =
      [⟨1, 5, 2, 86399500, .present, .manual⟩,
       ⟨1, 5, 2, 43200000, .present, .manual⟩] ∧
    sameDay 86399500 43200000 := by
  refine ⟨by decide, by decide, by decide, ?_⟩
  show (86399500 : Nat) / msPerDay = 43200000 / msPerDay
  decide

/-- C2 amended: after a successful first recording whose stored
lectureDate has a time of day inside [00:00:00.000, 23:59:59.000], any
second authorized same-day call for the same student and group fails
with DuplicateForDay and leaves the store unchanged, on the manual path
and on the scan path alike. -/
theorem duplicate_rejected_within_window (db0 db1 : DB) (c1 c2 : Caller)
    (sid gid t1 t2 : Nat) (st1 st2 : AttStatus) (r : AttRecord)
    (s : StudentDoc)
    (h1 : recordAttendance db0 c1 sid gid st1 t1 = (.created r, db1))
    (hwin : t1 % msPerDay ≤ endOfDayOffset)
    (hday : sameDay t1 t2)
    (hs : db0.students.lookup sid = some s)
    (hact : s.isActive = true)
    (hc2 : c2.role = .doctor → ∃ d, db0.doctors.lookup c2.id = some d ∧
      d.assignedGroups.contains gid = true) :
    recordAttendance db1 c2 sid gid st2 t2 = (.duplicateForDay, db1) ∧
    scanQRCode db1 c2 sid gid t2 = (.duplicateForDay, db1) := by
  obtain ⟨hr, hdb1, hfd, s', hs', hgs'⟩ :=
    recordAttendance_created _ _ _ _ _ _ _ _ h1
  rw [hs] at hs'
  injection hs' with hss
  have hgrp : s.group = gid := by rw [hss]; exact hgs'
  have hstu : db1.students = db0.students := by rw [hdb1]
  have hdoc : db1.doctors = db0.doctors := by rw [hdb1]
  have hatt : db1.attendance = db0.attendance ++ [r] := by rw [hdb1]
  have hmem : r ∈ db1.attendance := by
    rw [hatt]
    simp
  obtain ⟨q, hq⟩ := findDuplicate_isSome_of_mem db1.attendance sid gid t2 r
    hmem (by rw [hr]) (by rw [hr]) (by rw [hr]; exact hday)
    (by rw [hr]; exact hwin)
  constructor
  · unfold recordAttendance
    rw [hstu, hs]
    simp only [hgrp, bne_self_eq_false, Bool.false_eq_true, if_false]
    cases hrole : c2.role with
    | adminRole => exact recordCreate_some db1 c2.id sid gid t2 st2 .manual q hq
    | doctor =>
      obtain ⟨d, hd, hin⟩ := hc2 hrole
      rw [hdoc, hd]
      simp only [hin, Bool.not_true, Bool.false_eq_true, if_false]
      exact recordCreate_some db1 c2.id sid gid t2 st2 .manual q hq
  · unfold scanQRCode
    rw [hstu, hs]
    simp only [hact, Bool.not_true, Bool.false_eq_true, if_false,
      hgrp, bne_self_eq_false]
    cases hrole : c2.role with
    | adminRole =>
      rw [hdoc]
      cases hdl : db0.doctors.lookup c2.id with
      | none =>
        exact recordCreate_some db1 c2.id sid gid t2 .present .qr_scan q hq
      | some d =>
        exact recordCreate_some db1 c2.id sid gid t2 .present .qr_scan q hq
    | doctor =>
      obtain ⟨d, hd, hin⟩ := hc2 hrole
      rw [hdoc, hd]
      simp only [hin, Bool.not_true, Bool.false_eq_true, if_false]
      exact recordCreate_some db1 c2.id sid gid t2 .present .qr_scan q hq

/-- C2 witness: after recording student 1 at timestamp 1000, both paths
reject a second call at timestamp 2000 of the same day. -/
theorem duplicate_rejected_within_window_witness :
    recordAttendance dbC2after callerC2 1 5 .late 2000 =
      (.duplicateForDay, dbC2after) ∧
    scanQRCode dbC2after callerC2 1 5 2000 =
      (.duplicateForDay, dbC2after) :=
  duplicate_rejected_within_window dbC2 dbC2after callerC2 callerC2 1 5
    1000 2000 .present .late ⟨1, 5, 2, 1000, .present, .manual⟩ ⟨5, true⟩
    (by decide) (by decide) rfl (by decide) rfl
    (fun _ => ⟨⟨[5]⟩, by decide, by decide⟩)

/-- C3 counterexample: the store reached by two recording calls (the
second possible because the first record sits in the final 999 ms of
the day) holds two present records for student 1, group 5, day 0 — the
invariant of at most one non-absent record per (student, group,
calendar day) does not hold for every reachable store. -/
theorem spec_day_invariant_counterexample :
    (recordAttendance (recordAttendance dbC3 callerC3 1 5 .present
        86399500).2 callerC3 1 5 .present 43200000).2.attendance =
      [⟨1, 5, 2, 86399500, .present, .manual⟩,
       ⟨1, 5, 2, 43200000, .present, .manual⟩] ∧
    ¬SpecNonAbsentDayUnique
      (recordAttendance (recordAttendance dbC3 callerC3 1 5 .present
        86399500).2 callerC3 1 5 .present 43200000).2.attendance := by
  have hstore : (recordAttendance (recordAttendance dbC3 callerC3 1 5
      .present 86399500).2 callerC3 1 5 .present 43200000).2.attendance =
      [⟨1, 5, 2, 86399500, .present, .manual⟩,
       ⟨1, 5, 2, 43200000, .present, .manual⟩] := by decide
  refine ⟨hstore, ?_⟩
  rw [hstore]
  intro h
  have hrel := (List.pairwise_cons.mp h).1
    ⟨1, 5, 2, 43200000, .present, .manual⟩ (List.mem_singleton.mpr rfl)
  exact hrel (by decide) (by decide)
    ⟨rfl, rfl, (by decide : (86399500 : Nat) / msPerDay =
      43200000 / msPerDay)⟩

/-- C3 amended: every recording operation preserves the window-bounded
day-uniqueness invariant: among same-day records of one (student,
group), at most one can carry a time of day inside the duplicate-query
window [00:00:00.000, 23:59:59.000]; the unbounded per-day invariant
fails only for records stamped in the final 999 ms of a day. -/
theorem day_window_invariant_preserved (db : DB) (c : Caller)
    (sid gid now t tb : Nat) (st : AttStatus) (items : List BulkItem)
    (succ failed : List Nat) (db' : DB)
    (hInv : DayUnique db.attendance) :
    DayUnique (scanQRCode db c sid gid now).2.attendance ∧
    DayUnique (recordAttendance db c sid gid st t).2.attendance ∧
    (bulkRecordAttendance db c gid tb items = .processed succ failed db' →
      DayUnique db'.attendance) := by
  refine ⟨scanQRCode_dayUnique db c sid gid now hInv,
    recordAttendance_dayUnique db c sid gid t st hInv, fun hb => ?_⟩
  obtain ⟨h1, h2, h3⟩ :=
    bulkRecordAttendance_processed db c gid tb items succ failed db' hb
  rw [← h3]
  exact bulkFold_dayUnique c gid tb items ⟨[], [], db⟩ hInv

/-- C3 witness: the invariant facts at the concrete C3 fixture. -/
theorem day_window_invariant_preserved_witness :
    DayUnique (scanQRCode dbC3 callerC3 1 5 1000).2.attendance ∧
    DayUnique
      ((recordAttendance dbC3 callerC3 1 5 .present 1000).2.attendance) ∧
    (bulkRecordAttendance dbC3 callerC3 5 1000 [] =
        .processed [] [] dbC3 → DayUnique dbC3.attendance) :=
  day_window_invariant_preserved dbC3 callerC3 1 5 1000 1000 1000
    .present [] [] [] dbC3 List.Pairwise.nil

/-- C4 counterexample: the bulk path records student 1 into group 5
although student 1 belongs to group 7 — the same request that the
single-record path rejects with NotInGroup — so bulk entries do not
undergo the per-record student-resolution and membership checks. -/
theorem bulk_skips_membership_counterexample :
    bulkRecordAttendance dbC4 callerC4 5 1000 [⟨1, .present⟩] =
      .processed [1] []
        { dbC4 with attendance := [⟨1, 5, 2, 1000, .present, .manual⟩] } ∧
    (recordAttendance dbC4 callerC4 1 5 .present 1000).1 =
      .notInGroup := by
  decide

/-- C4 amended: bulk processing applies only the duplicate-for-day
check per entry; each entry receives exactly one outcome (the success
and error lists together cover the whole list), the store only grows by
one record per successful entry, and no failure aborts later entries or
rolls back earlier ones. -/
theorem bulk_partial_failure (db : DB) (c : Caller) (gid t : Nat)
    (items : List BulkItem) (succ failed : List Nat) (db' : DB)
    (h : bulkRecordAttendance db c gid t items =
      .processed succ failed db') :
    succ.length + failed.length = items.length ∧
    ∃ new : List AttRecord, db'.attendance = db.attendance ++ new ∧
      new.length = succ.length := by
  obtain ⟨h1, h2, h3⟩ :=
    bulkRecordAttendance_processed db c gid t items succ failed db' h
  constructor
  · rw [← h1, ← h2]
    have := bulkFold_counts c gid t items ⟨[], [], db⟩
    simpa using this
  · obtain ⟨new, hatt, hlen⟩ := bulkFold_store c gid t items ⟨[], [], db⟩
    refine ⟨new, ?_, ?_⟩
    · rw [← h3]
      exact hatt
    · rw [← h1]
      simpa using hlen.symm

/-- C4 witness: a two-entry bulk call where the second entry fails as a
duplicate while the first entry's record is kept. -/
theorem bulk_partial_failure_witness :
    ([1] : List Nat).length + ([1] : List Nat).length =
      ([⟨1, .present⟩, ⟨1, .late⟩] : List BulkItem).length ∧
    ∃ new : List AttRecord,
      ({ dbC4 with attendance := [⟨1, 5, 2, 1000, .present, .manual⟩] }
        : DB).attendance = dbC4.attendance ++ new ∧
      new.length = ([1] : List Nat).length :=
  bulk_partial_failure dbC4 callerC4 5 1000 [⟨1, .present⟩, ⟨1, .late⟩]
    [1] [1] { dbC4 with attendance := [⟨1, 5, 2, 1000, .present, .manual⟩] }
    (by decide)

/-- C8 counterexample: the student profile endpoint rounds 1 of 3
sessions to one decimal (33.3), not to two decimals (33.33) as the
claim states uniformly for all reporting endpoints. -/
theorem profile_one_decimal_counterexample :
    studentProfilePercentage 1 3 ≠ roundTwoDecimals ((1 : ℚ) / 3 * 100) := by
  have h1 : Int.floor ((1 : ℚ) / 3 * 100 * 10 + 1 / 2) = (333 : ℤ) := by
    rw [Int.floor_eq_iff]
    norm_num
  have h2 : Int.floor ((1 : ℚ) / 3 * 100 * 100 + 1 / 2) = (3333 : ℤ) := by
    rw [Int.floor_eq_iff]
    norm_num
  simp only [studentProfilePercentage, jsToFixed1, jsMathRound,
    roundTwoDecimals]
  norm_num [h1, h2]

/-- C8 amended: every percentage is 0 at zero total (no NaN, no
division error); for positive totals the statistics endpoint and the
student report round present / total * 100 to two decimals (half up)
while the student profile endpoint rounds it to one decimal via
toFixed(1). -/
theorem percentage_rounding (p t : Nat) :
    statsAttendancePercentage p 0 = 0 ∧
    studentReportPercentage p 0 = 0 ∧
    studentProfilePercentage p 0 = 0 ∧
    (0 < t →
      statsAttendancePercentage p t = roundTwoDecimals ((p : ℚ) / t * 100) ∧
      studentReportPercentage p t = roundTwoDecimals ((p : ℚ) / t * 100) ∧
      studentProfilePercentage p t = jsToFixed1 ((p : ℚ) / t * 100)) := by
  have hzero : Int.floor ((0 : ℚ) + 1 / 2) = (0 : ℤ) := by
    rw [Int.floor_eq_iff]
    norm_num
  refine ⟨?_, ?_, ?_, fun ht => ⟨?_, ?_, ?_⟩⟩
  · simp [statsAttendancePercentage]
  · simpa [studentReportPercentage, jsMathRound] using hzero
  · simp [studentProfilePercentage]
  · simp [statsAttendancePercentage, roundTwoDecimals, jsMathRound, ht]
  · simp [studentReportPercentage, roundTwoDecimals, jsMathRound, ht]
  · simp [studentProfilePercentage, ht]

/-- C8 witness: the rounding facts at 1 present of 4 total. -/
theorem percentage_rounding_witness :
    statsAttendancePercentage 1 0 = 0 ∧
    statsAttendancePercentage 1 4 = roundTwoDecimals ((1 : ℚ) / 4 * 100) ∧
    studentProfilePercentage 1 4 = jsToFixed1 ((1 : ℚ) / 4 * 100) :=
  ⟨(percentage_rounding 1 0).1,
   ((percentage_rounding 1 4).2.2.2 (by norm_num)).1,
   ((percentage_rounding 1 4).2.2.2 (by norm_num)).2.2⟩

end Sadat
